import Mathlib

/-!
Shallow embedding of the evcojs CQRS / event-sourcing engine
(current variant of the module: context-scoped upcaster registration,
state-returning command dispatch).

JS `Map` objects are modelled as association lists with first-match
lookup and in-place replacement on `set`.  Mutable global registries are
modelled by an explicit `Engine` record threaded through the
registration functions; a registration that throws is modelled by
returning the unchanged engine together with the thrown message.
`randomUUID` is modelled by a fresh-name generator `uuid : Nat → String`
with a counter advanced once per generated id, and `new Date()` by an
explicit `now` parameter.  To make claims about which collaborators are
invoked statable, the two pipelines also return a trace of collaborator
invocations; the returned value components mirror the source exactly.
-/

namespace Evco

/-- A command: `{ type, subjects, data }`. -/
structure Command (C : Type) where
  type : String
  subjects : List String
  data : C
deriving DecidableEq

/-- A CloudEvent in the engine's wire shape: required `type` and
`subject`; optional `id`, `source`, `specversion`, `time`; payload
`data`; arbitrary extension attributes `ext`. -/
structure CloudEvent (D : Type) where
  id : Option String := none
  source : Option String := none
  type : String
  specversion : Option String := none
  subject : String
  time : Option String := none
  data : D
  ext : List (String × String) := []
deriving DecidableEq

/-- A registered command handler (`handle`, `context`, `type`).  The
handler may throw, modelled by `Except E`. -/
structure CommandHandler (C D S E : Type) where
  handle : C → Option S → Except E (List (CloudEvent D))
  context : String
  type : String

/-- A registered state rebuilder (`stateRebuilder`, `context`, `type`). -/
structure StateRebuilder (D S : Type) where
  stateRebuilder : D → Option S → Option S
  context : String
  type : String

/-- A registered event (side-effect) handler; the callee itself is an
opaque value of type `H`, recorded in the invocation trace. -/
structure EventHandler (H : Type) where
  eventHandler : H
  type : String
deriving DecidableEq

/-- A registered upcaster (`upcast`, `type`, `context`). -/
structure UpCasthandler (D : Type) where
  upcast : CloudEvent D → CloudEvent D
  type : String
  context : String

/-- A registered state loader for a context. -/
structure StateLoaderFunction (D : Type) where
  load : List String → List (CloudEvent D)
  context : String

/-- Association-list model of a JS `Map String α`: first-match lookup. -/
def mapGet {α : Type} (m : List (String × α)) (k : String) : Option α :=
  match m with
  | [] => none
  | (k', v) :: rest => if k' = k then some v else mapGet rest k

/-- Model of `Map.has`. -/
def mapHas {α : Type} (m : List (String × α)) (k : String) : Bool :=
  match m with
  | [] => false
  | (k', _) :: rest => if k' = k then true else mapHas rest k

/-- Model of `Map.set`: replace in place if the key exists, else append. -/
def mapSet {α : Type} (m : List (String × α)) (k : String) (v : α) :
    List (String × α) :=
  match m with
  | [] => [(k, v)]
  | (k', v') :: rest =>
    if k' = k then (k', v) :: rest else (k', v') :: mapSet rest k v

/-- The module-level mutable state: the default `source` and the five
registries. -/
structure Engine (C D S E H : Type) where
  source : String := "CQRS_DEFAULTSOURCE"
  commands : List (String × CommandHandler C D S E) := []
  stateRebuilder : List (String × StateRebuilder D S) := []
  eventHandler : List (String × List (EventHandler H)) := []
  upcastHandler : List (String × UpCasthandler D) := []
  stateLoader : List (String × StateLoaderFunction D) := []

variable {C D S E H : Type}

/-- Source `createKey(context, type)`: the composite registration key. -/
def createKey (context : String) (type : String) : String :=
  "[" ++ context ++ "|" ++ type ++ "]"

/-- Source `setSource(src)`: sets the process-wide default source. -/
def setSource (eng : Engine C D S E H) (src : String) : Engine C D S E H :=
  { eng with source := src }

/-- Source `registerUpcaster(type, context, func)`: throws on a duplicate
`(context, type)` key, else stores under that key. -/
def registerUpcaster (eng : Engine C D S E H) (type context : String)
    (func : CloudEvent D → CloudEvent D) : Engine C D S E H × Option String :=
  let key := createKey context type
  if mapHas eng.upcastHandler key then
    (eng, some ("upcaster for " ++ key ++ " already exists"))
  else
    ({ eng with
        upcastHandler := mapSet eng.upcastHandler key
          { type := type, context := context, upcast := func } },
     none)

/-- Source `registerEventhandler(type, func)`: appends to the handler list for
`type`, creating the list if absent. -/
def registerEventhandler (eng : Engine C D S E H) (type : String) (func : H) :
    Engine C D S E H :=
  let existing := (mapGet eng.eventHandler type).getD []
  { eng with
      eventHandler := mapSet eng.eventHandler type
        (existing ++ [{ type := type, eventHandler := func }]) }

/-- Source `registerStateLoadingFunction(context, load)`: last writer wins. -/
def registerStateLoadingFunction (eng : Engine C D S E H) (context : String)
    (load : List String → List (CloudEvent D)) : Engine C D S E H :=
  { eng with
      stateLoader := mapSet eng.stateLoader context
        { load := load, context := context } }

/-- Source `registerCommandHandler(type, context, commandHandler)`: throws if a
handler for `type` already exists (keyed by `type` alone). -/
def registerCommandHandler (eng : Engine C D S E H) (type context : String)
    (commandHandler : C → Option S → Except E (List (CloudEvent D))) :
    Engine C D S E H × Option String :=
  if mapHas eng.commands type then
    (eng, some ("Command handler for " ++ type ++ " already exists"))
  else
    ({ eng with
        commands := mapSet eng.commands type
          { type := type, context := context, handle := commandHandler } },
     none)

/-- Source `registerStateRebuilder(type, context, builderHandler)`: throws on a
duplicate `(context, type)` key. -/
def registerStateRebuilder (eng : Engine C D S E H) (type context : String)
    (builderHandler : D → Option S → Option S) :
    Engine C D S E H × Option String :=
  let key := createKey context type
  if mapHas eng.stateRebuilder key then
    (eng, some ("State rebuilder for " ++ key ++ " already exists"))
  else
    ({ eng with
        stateRebuilder := mapSet eng.stateRebuilder key
          { type := type, context := context,
            stateRebuilder := builderHandler } },
     none)

/-- Source `maybeUpcast(event)`: looks up `upcastHandler.get(event.type)` (the
bare event type, exactly as in the source) and applies the upcaster if
found, else returns the event unchanged. -/
def maybeUpcast (eng : Engine C D S E H) (event : CloudEvent D) :
    CloudEvent D :=
  match mapGet eng.upcastHandler event.type with
  | some upcaster => upcaster.upcast event
  | none => event

/-- One entry of the collaborator-invocation trace. -/
inductive TraceEntry (D S H : Type) where
  /-- The state loader for `context` was invoked with `subjects`. -/
  | loaderCall (context : String) (subjects : List String)
  /-- `maybeUpcast` was applied to `input`, producing `output`. -/
  | upcastCall (input output : CloudEvent D)
  /-- The rebuilder registered for `(regContext, regType)` was invoked
  while replaying under `replayContext`, with prior state `state`. -/
  | rebuilderCall (regContext regType replayContext : String)
      (state : Option S)
  /-- Event handler `h` was invoked with `(event, state)`. -/
  | eventHandlerCall (h : H) (event : CloudEvent D) (state : Option S)
deriving DecidableEq

/-- Whether a trace entry is an event-handler invocation. -/
def TraceEntry.isEventHandlerCall : TraceEntry D S H → Bool
  | .eventHandlerCall _ _ _ => true
  | _ => false

/-- Whether a trace entry is a `maybeUpcast` application. -/
def TraceEntry.isUpcastCall : TraceEntry D S H → Bool
  | .upcastCall _ _ => true
  | _ => false

/-- Source `executeEvent(context, event, state)`: looks up the rebuilder under
`createKey(context, event.type)`, and invokes it when its registered
context equals the replay context; otherwise the state is unchanged.
Also reports the invocation, if any. -/
def executeEvent (eng : Engine C D S E H) (context : String)
    (event : CloudEvent D) (state : Option S) :
    Option S × List (TraceEntry D S H) :=
  match mapGet eng.stateRebuilder (createKey context event.type) with
  | some rebuilder =>
    if rebuilder.context = context then
      (rebuilder.stateRebuilder event.data state,
       [.rebuilderCall rebuilder.context rebuilder.type context state])
    else (state, [])
  | none => (state, [])

/-- The sequential fold of events through `executeEvent` (the `for`
loops of `createState` and `handleCommand`). -/
def foldEvents (eng : Engine C D S E H) (context : String) :
    List (CloudEvent D) → Option S → Option S × List (TraceEntry D S H)
  | [], state => (state, [])
  | e :: rest, state =>
    let r := executeEvent eng context e state
    let r2 := foldEvents eng context rest r.1
    (r2.1, r.2 ++ r2.2)

/-- The events obtained from the state loader for `context` (empty when
no loader is registered). -/
def loadedEvents (eng : Engine C D S E H) (context : String)
    (subjects : List String) : List (CloudEvent D) :=
  match mapGet eng.stateLoader context with
  | some stateLoadingFunction => stateLoadingFunction.load subjects
  | none => []

/-- Source `createState(context, subjects)`: load history, upcast every loaded
event, then fold from an absent state.  The first component is the
reconstructed state; the second is the invocation trace. -/
def createState (eng : Engine C D S E H) (context : String)
    (subjects : List String) : Option S × List (TraceEntry D S H) :=
  let loaded := loadedEvents eng context subjects
  let loaderTrace : List (TraceEntry D S H) :=
    match mapGet eng.stateLoader context with
    | some _ => [.loaderCall context subjects]
    | none => []
  let upTrace := loaded.map (fun e => TraceEntry.upcastCall e (maybeUpcast eng e))
  let events := loaded.map (maybeUpcast eng)
  let r := foldEvents eng context events none
  (r.1, loaderTrace ++ upTrace ++ r.2)

/-- Materialization of one produced event into wire form, given the
fresh id `uid` to use when the event carries none (the `...event` spread
followed by the field overrides). -/
def materializeEvent (src uid now : String) (event : CloudEvent D) :
    CloudEvent D :=
  { event with
    source := some (event.source.getD src)
    id := some (event.id.getD uid)
    time := some (event.time.getD now)
    specversion := some "1.0"
    data := event.data }

/-- Materialization of the produced event list; the counter `n` advances
exactly on events lacking an id (one `randomUUID()` call each). -/
def materializeEvents (src : String) (uuid : Nat → String) (now : String) :
    List (CloudEvent D) → Nat → List (CloudEvent D)
  | [], _ => []
  | e :: rest, n =>
    match e.id with
    | some _ =>
      materializeEvent src "" now e :: materializeEvents src uuid now rest n
    | none =>
      materializeEvent src (uuid n) now e ::
        materializeEvents src uuid now rest (n + 1)

/-- The side-effect fan-out: for each materialized event, in order, the
handlers registered for its type are invoked in list order with the
event and the final state. -/
def sideEffectCalls (eng : Engine C D S E H) :
    List (CloudEvent D) → Option S → List (TraceEntry D S H)
  | [], _ => []
  | ce :: rest, state =>
    (match mapGet eng.eventHandler ce.type with
     | some ehs =>
       ehs.map (fun eh => TraceEntry.eventHandlerCall eh.eventHandler ce state)
     | none => []) ++ sideEffectCalls eng rest state

deriving instance DecidableEq for Except

/-- The observable outcome of one `handleCommand` call: its returned
value (`Except` models a propagated throw, `Option` the possibly-null
state), the materialized wire events, and the invocation trace. -/
structure DispatchOutcome (D S E H : Type) where
  result : Except E (Option S)
  materialized : List (CloudEvent D)
  trace : List (TraceEntry D S H)
deriving DecidableEq

/-- Source `handleCommand(command)`: look up the handler by `command.type`
(absent → null result, nothing invoked); reconstruct state under the
handler's context; run the handler (a throw propagates, aborting
everything downstream); fold the new events in order; materialize them;
fan out to the event handlers with the final state; return the state. -/
def handleCommand (eng : Engine C D S E H) (uuid : Nat → String)
    (now : String) (command : Command C) : DispatchOutcome D S E H :=
  match mapGet eng.commands command.type with
  | none => { result := Except.ok none, materialized := [], trace := [] }
  | some commandHandler =>
    let r0 := createState eng commandHandler.context command.subjects
    match commandHandler.handle command.data r0.1 with
    | Except.error e =>
      { result := Except.error e, materialized := [], trace := r0.2 }
    | Except.ok newEvents =>
      let r1 := foldEvents eng commandHandler.context newEvents r0.1
      let cloudEvents := materializeEvents eng.source uuid now newEvents 0
      { result := Except.ok r1.1
        materialized := cloudEvents
        trace := r0.2 ++ r1.2 ++ sideEffectCalls eng cloudEvents r1.1 }

/-! ### Concrete instances used by the claim theorems and witnesses -/

/-- The concrete upcaster used to exhibit the miss: bumps the payload. -/
def c1Upcast : CloudEvent Nat → CloudEvent Nat :=
  fun ev => { ev with data := ev.data + 1 }

/-- A stored event of type `"t"`, payload `5`. -/
def c1Event : CloudEvent Nat := { type := "t", subject := "/s/1", data := 5 }

/-- Engine with an upcaster registered for `(context "c", type "t")`, a
rebuilder for `("c", "t")` that stores the event payload as the state,
and a loader returning the single stored event. -/
def c1Engine : Engine Nat Nat Nat String Nat :=
  let e0 : Engine Nat Nat Nat String Nat := {}
  let e1 := (registerUpcaster e0 "t" "c" c1Upcast).1
  let e2 := (registerStateRebuilder e1 "t" "c" (fun d _ => some d)).1
  registerStateLoadingFunction e2 "c" (fun _ => [c1Event])

/-- Deterministic fresh-id generator standing in for `randomUUID`. -/
def demoUuid : Nat → String := fun n => String.mk (List.replicate (n + 1) 'u')

/-- Command handler body: emits one `"borrowed"` event whose payload is
the command payload plus the current state. -/
def borrowHandle : Nat → Option Nat → Except String (List (CloudEvent Nat)) :=
  fun c s => Except.ok [{ type := "borrowed", subject := "/b/1", data := c + s.getD 0 }]

/-- Command handler body that always throws. -/
def failHandle : Nat → Option Nat → Except String (List (CloudEvent Nat)) :=
  fun _ _ => Except.error "boom"

/-- The registered record for `"borrow"`. -/
def demoBorrowCH : CommandHandler Nat Nat Nat String :=
  { handle := borrowHandle, context := "inv", type := "borrow" }

/-- The registered record for `"fail"`. -/
def demoFailCH : CommandHandler Nat Nat Nat String :=
  { handle := failHandle, context := "inv", type := "fail" }

/-- An engine with two command handlers, rebuilders for `"loaded"` and
`"borrowed"` under context `"inv"`, a loader returning one `"loaded"`
event of payload `2`, two event handlers for `"borrowed"` (ids `10` and
`11`, in that registration order), and an upcaster for
`("inv", "borrowed")`. -/
def demoEngine : Engine Nat Nat Nat String Nat :=
  let e0 : Engine Nat Nat Nat String Nat := {}
  let e1 := (registerCommandHandler e0 "borrow" "inv" borrowHandle).1
  let e2 := (registerCommandHandler e1 "fail" "inv" failHandle).1
  let e3 := (registerStateRebuilder e2 "borrowed" "inv"
    (fun d s => some (s.getD 0 + d))).1
  let e4 := (registerStateRebuilder e3 "loaded" "inv"
    (fun d s => some (s.getD 0 + d))).1
  let e5 := registerStateLoadingFunction e4 "inv"
    (fun _ => [{ type := "loaded", subject := "/b/1", data := 2 }])
  let e6 := registerEventhandler e5 "borrowed" 10
  let e7 := registerEventhandler e6 "borrowed" 11
  (registerUpcaster e7 "borrowed" "inv" (fun ev => { ev with data := 99 })).1

/-- The single event the `"borrow"` handler produces on the demo run. -/
def demoNewEvents : List (CloudEvent Nat) :=
  [{ type := "borrowed", subject := "/b/1", data := 7 }]

/-- The demo `"borrow"` command. -/
def demoCommand : Command Nat := { type := "borrow", subjects := ["/b/1"], data := 5 }

/-- A concrete rebuilder body for the collision demonstration. -/
def c9Reb : Nat → Option Nat → Option Nat := fun d _ => some d

/-- Handler that supplies an explicitly empty id on its produced event. -/
def c7EmptyIdHandle : Nat → Option Nat → Except String (List (CloudEvent Nat)) :=
  fun _ _ => Except.ok [{ id := some "", type := "t", subject := "/s/1", data := 0 }]

/-- Engine whose `"emit"` handler produces one event with `id = ""`. -/
def c7Engine : Engine Nat Nat Nat String Nat :=
  (registerCommandHandler ({} : Engine Nat Nat Nat String Nat)
    "emit" "c" c7EmptyIdHandle).1

/-- Number of id-less events among the first `i` events of the list (the
number of `randomUUID()` calls made before position `i`). -/
def countNoneId : List (CloudEvent D) → Nat → Nat
  | _, 0 => 0
  | [], _ + 1 => 0
  | e :: rest, i + 1 => (if e.id = none then 1 else 0) + countNoneId rest i

/-- Handler producing three events: two without an id around one with a
supplied id, source, time and an extension attribute. -/
def c7bEvents : List (CloudEvent Nat) :=
  [{ type := "t", subject := "/s/1", data := 1 },
   { id := some "given", source := some "S", time := some "T0", type := "t",
     subject := "/s/2", data := 2, ext := [("traceid", "x")] },
   { type := "t", subject := "/s/3", data := 3 }]

/-- The handler body returning `c7bEvents`. -/
def c7bHandle : Nat → Option Nat → Except String (List (CloudEvent Nat)) :=
  fun _ _ => Except.ok c7bEvents

/-- The registered record for the defaults witness. -/
def c7bCH : CommandHandler Nat Nat Nat String :=
  { handle := c7bHandle, context := "c", type := "emit" }

/-- Engine for the defaults witness. -/
def c7bEngine : Engine Nat Nat Nat String Nat :=
  (registerCommandHandler ({} : Engine Nat Nat Nat String Nat)
    "emit" "c" c7bHandle).1

/-! ### Registry map lemmas -/

theorem mapGet_some_mapHas {α : Type} {m : List (String × α)} {k : String}
    {v : α} (h : mapGet m k = some v) : mapHas m k = true := by
  induction m with
  | nil => simp [mapGet] at h
  | cons p rest ih =>
    obtain ⟨k', v'⟩ := p
    by_cases hk : k' = k
    · simp [mapHas, hk]
    · simp only [mapGet, if_neg hk] at h
      simp only [mapHas, if_neg hk]
      exact ih h

theorem mapGet_mapSet_self {α : Type} (m : List (String × α)) (k : String)
    (v : α) : mapGet (mapSet m k v) k = some v := by
  induction m with
  | nil => simp [mapSet, mapGet]
  | cons p rest ih =>
    obtain ⟨k', v'⟩ := p
    by_cases hk : k' = k <;> simp [mapSet, mapGet, hk, ih]

/-! ### Trace-shape lemmas for the replay pipeline -/

theorem mem_executeEvent_trace {t : TraceEntry D S H} {eng : Engine C D S E H}
    {ctx : String} {ev : CloudEvent D} {st : Option S}
    (h : t ∈ (executeEvent eng ctx ev st).2) :
    ∃ b s, t = TraceEntry.rebuilderCall ctx b ctx s := by
  unfold executeEvent at h
  cases hget : mapGet eng.stateRebuilder (createKey ctx ev.type) with
  | none => rw [hget] at h; simp at h
  | some reb =>
    rw [hget] at h
    dsimp only at h
    by_cases hc : reb.context = ctx
    · rw [if_pos hc] at h
      simp only [List.mem_singleton] at h
      exact ⟨reb.type, st, by rw [h, hc]⟩
    · rw [if_neg hc] at h
      simp at h

theorem mem_foldEvents_trace {t : TraceEntry D S H} {eng : Engine C D S E H}
    {ctx : String} {evs : List (CloudEvent D)} {st : Option S}
    (h : t ∈ (foldEvents eng ctx evs st).2) :
    ∃ b s, t = TraceEntry.rebuilderCall ctx b ctx s := by
  induction evs generalizing st with
  | nil => simp [foldEvents] at h
  | cons e rest ih =>
    simp only [foldEvents, List.mem_append] at h
    cases h with
    | inl h => exact mem_executeEvent_trace h
    | inr h => exact ih h

theorem mem_createState_trace {t : TraceEntry D S H} {eng : Engine C D S E H}
    {ctx : String} {subs : List String}
    (h : t ∈ (createState eng ctx subs).2) :
    t = TraceEntry.loaderCall ctx subs ∨
    (∃ e, e ∈ loadedEvents eng ctx subs ∧
      t = TraceEntry.upcastCall e (maybeUpcast eng e)) ∨
    (∃ b s, t = TraceEntry.rebuilderCall ctx b ctx s) := by
  unfold createState at h
  simp only [List.mem_append] at h
  rcases h with (h | h) | h
  · cases hsl : mapGet eng.stateLoader ctx with
    | none => rw [hsl] at h; simp at h
    | some slf => rw [hsl] at h; simp only [List.mem_singleton] at h; left; exact h
  · right; left
    rcases List.mem_map.mp h with ⟨e, he, rfl⟩
    exact ⟨e, he, rfl⟩
  · right; right; exact mem_foldEvents_trace h

theorem mem_sideEffectCalls {t : TraceEntry D S H} {eng : Engine C D S E H}
    {ces : List (CloudEvent D)} {st : Option S}
    (h : t ∈ sideEffectCalls eng ces st) :
    ∃ hd ce, ce ∈ ces ∧ t = TraceEntry.eventHandlerCall hd ce st := by
  induction ces with
  | nil => simp [sideEffectCalls] at h
  | cons ce rest ih =>
    simp only [sideEffectCalls, List.mem_append] at h
    cases h with
    | inl h =>
      cases hget : mapGet eng.eventHandler ce.type with
      | none => rw [hget] at h; simp at h
      | some ehs =>
        rw [hget] at h
        rcases List.mem_map.mp h with ⟨eh, _, rfl⟩
        exact ⟨eh.eventHandler, ce, List.mem_cons_self _ _, rfl⟩
    | inr h =>
      rcases ih h with ⟨hd, ce', hmem, rfl⟩
      exact ⟨hd, ce', List.mem_cons_of_mem _ hmem, rfl⟩

/-! ### Claim C1: the registered upcaster is never found during replay.

`registerUpcaster` stores the upcaster under the composite key
`createKey(context, type)`, but `maybeUpcast` looks it up under the bare
`event.type`; hence an upcaster registered for a `(context, type)` pair
is never applied when that event type is replayed, and the original
event is folded instead of the upcaster's output. -/

/-- Claim C1. (code bug evidence).  Replaying an event whose `(context,
type)` has a registered upcaster does *not* fold the upcaster's output:
the registration succeeds and the upcaster sits in the registry under
`createKey "c" "t"`, yet `maybeUpcast` returns the event unchanged, and
`createState` folds the original payload `5` — folding the upcaster's
output would have produced `6`. -/
theorem createState_folds_original_despite_registered_upcaster :
    (registerUpcaster ({} : Engine Nat Nat Nat String Nat) "t" "c" c1Upcast).2
      = none ∧
    mapHas c1Engine.upcastHandler (createKey "c" "t") = true ∧
    maybeUpcast c1Engine c1Event = c1Event ∧
    (c1Upcast c1Event).data = 6 ∧
    (createState c1Engine "c" ["/s/1"]).1 = some 5 ∧
    (foldEvents c1Engine "c" [c1Upcast c1Event] (none : Option Nat)).1
      = some 6 :=
  ⟨rfl, by decide, by decide, by decide, by decide, by decide⟩

/-! ### Claim C3: unknown command type is a silent no-op -/

/-- Claim C3.  A command whose type has no registered handler yields the
absent result without throwing, and the dispatch invokes no state
loader, no rebuilder, and no event handler (its invocation trace is
empty) and materializes nothing. -/
theorem handleCommand_unknown_type_noop {eng : Engine C D S E H}
    {uuid : Nat → String} {now : String} {command : Command C}
    (h : mapGet eng.commands command.type = none) :
    handleCommand eng uuid now command =
      { result := Except.ok none, materialized := [], trace := [] } := by
  unfold handleCommand
  rw [h]

/-- Witness for C3 on the empty engine and command type `"x"`. -/
theorem handleCommand_unknown_type_noop_witness :
    mapGet (Engine.commands ({} : Engine Nat Nat Nat String Nat)) "x" = none ∧
    handleCommand ({} : Engine Nat Nat Nat String Nat)
        (fun n => String.mk (List.replicate (n + 1) 'u')) "T"
        { type := "x", subjects := [], data := 0 } =
      { result := Except.ok none, materialized := [], trace := [] } :=
  ⟨rfl, handleCommand_unknown_type_noop rfl⟩

/-! ### A concrete demonstration engine used by the witnesses -/

theorem demoUuid_ne_empty : ∀ n, demoUuid n ≠ "" := by
  intro n h
  have h2 : List.replicate (n + 1) 'u' = ([] : List Char) :=
    congrArg String.data h
  simp at h2

theorem demoUuid_injective : Function.Injective demoUuid := by
  intro a b h
  have h2 : List.replicate (a + 1) 'u' = List.replicate (b + 1) 'u' :=
    congrArg String.data h
  have h3 := congrArg List.length h2
  simp at h3
  exact h3

/-! ### Claim C5: duplicate command-handler registration -/

/-- Claim C5.  When a command handler is already registered for a type, a
second `registerCommandHandler` call for that type (any context, any
handler) throws the registration-conflict error, and the registry is
unchanged: the first handler is still the one registered. -/
theorem registerCommandHandler_duplicate_conflict {eng : Engine C D S E H}
    {type : String} (context2 : String)
    (handler2 : C → Option S → Except E (List (CloudEvent D)))
    {ch₀ : CommandHandler C D S E}
    (h0 : mapGet eng.commands type = some ch₀) :
    (registerCommandHandler eng type context2 handler2).2 =
      some ("Command handler for " ++ type ++ " already exists") ∧
    (registerCommandHandler eng type context2 handler2).1 = eng ∧
    mapGet (registerCommandHandler eng type context2 handler2).1.commands type
      = some ch₀ := by
  have hhas := mapGet_some_mapHas h0
  simp only [registerCommandHandler, hhas, if_true]
  exact ⟨trivial, trivial, h0⟩

/-- Witness for C5: a duplicate registration of `"borrow"` on the demo
engine throws and leaves the first handler registered. -/
theorem registerCommandHandler_duplicate_conflict_witness :
    mapGet demoEngine.commands "borrow" = some demoBorrowCH ∧
    ((registerCommandHandler demoEngine "borrow" "other" failHandle).2 =
        some ("Command handler for " ++ "borrow" ++ " already exists") ∧
      (registerCommandHandler demoEngine "borrow" "other" failHandle).1 =
        demoEngine ∧
      mapGet (registerCommandHandler demoEngine "borrow" "other"
          failHandle).1.commands "borrow" = some demoBorrowCH) :=
  ⟨rfl, registerCommandHandler_duplicate_conflict "other" failHandle rfl⟩

/-! ### Claim C9: distinct (context, type) pairs with colliding keys -/

/-- Claim C9.  `createKey` collides on the distinct pairs
`("a|b", "c")` and `("a", "b|c")` (both format to `"[a|b|c]"`): after a
successful registration for the first pair, registering a rebuilder for
the second pair throws the duplicate error, although the only stored
rebuilder was registered for the first pair. -/
theorem registerStateRebuilder_key_collision :
    createKey "a|b" "c" = createKey "a" "b|c" ∧
    ¬ ("a|b" = "a" ∧ "c" = "b|c") ∧
    (registerStateRebuilder ({} : Engine Nat Nat Nat String Nat)
      "c" "a|b" c9Reb).2 = none ∧
    (registerStateRebuilder
      (registerStateRebuilder ({} : Engine Nat Nat Nat String Nat)
        "c" "a|b" c9Reb).1 "b|c" "a" c9Reb).2 =
      some ("State rebuilder for " ++ createKey "a" "b|c" ++ " already exists") ∧
    (mapGet (registerStateRebuilder ({} : Engine Nat Nat Nat String Nat)
        "c" "a|b" c9Reb).1.stateRebuilder (createKey "a" "b|c")).map
      (fun r => (r.context, r.type)) = some ("a|b", "c") :=
  ⟨by decide, by decide, rfl, by decide, by decide⟩

/-! ### Claim C2: a successful dispatch returns the final folded state -/

/-- Claim C2.  For a command whose type has a registered handler and whose
handler returns events without throwing, `handleCommand` returns the
final folded state: the state reconstructed from history under the
handler's context, then folded through the rebuilders of that context
with each handler-produced event in order. -/
theorem handleCommand_returns_final_folded_state {eng : Engine C D S E H}
    {uuid : Nat → String} {now : String} {command : Command C}
    {ch : CommandHandler C D S E} {newEvents : List (CloudEvent D)}
    (hch : mapGet eng.commands command.type = some ch)
    (hok : ch.handle command.data
        (createState eng ch.context command.subjects).1 = Except.ok newEvents) :
    (handleCommand eng uuid now command).result =
      Except.ok (foldEvents eng ch.context newEvents
        (createState eng ch.context command.subjects).1).1 := by
  unfold handleCommand
  rw [hch]
  dsimp only
  rw [hok]

/-- Witness for C2 on the demo engine: history folds to `some 2`, the
handler emits one event of payload `7`, and the dispatch returns the
live-folded state. -/
theorem handleCommand_returns_final_folded_state_witness :
    mapGet demoEngine.commands "borrow" = some demoBorrowCH ∧
    demoBorrowCH.handle demoCommand.data
      (createState demoEngine demoBorrowCH.context demoCommand.subjects).1 =
      Except.ok demoNewEvents ∧
    (handleCommand demoEngine demoUuid "T" demoCommand).result =
      Except.ok (foldEvents demoEngine demoBorrowCH.context demoNewEvents
        (createState demoEngine demoBorrowCH.context demoCommand.subjects).1).1 ∧
    (handleCommand demoEngine demoUuid "T" demoCommand).result =
      Except.ok (some 9) :=
  ⟨rfl, rfl,
    @handleCommand_returns_final_folded_state Nat Nat Nat String Nat
      demoEngine demoUuid "T" demoCommand demoBorrowCH demoNewEvents rfl rfl,
    by decide⟩

/-! ### Claim C4: a throwing handler aborts the whole dispatch -/

/-- Claim C4.  When the registered handler throws, `handleCommand`
propagates that error unmodified, materializes no event, and invokes no
event (side-effect) handler. -/
theorem handleCommand_propagates_handler_error {eng : Engine C D S E H}
    {uuid : Nat → String} {now : String} {command : Command C}
    {ch : CommandHandler C D S E} {err : E}
    (hch : mapGet eng.commands command.type = some ch)
    (herr : ch.handle command.data
        (createState eng ch.context command.subjects).1 = Except.error err) :
    (handleCommand eng uuid now command).result = Except.error err ∧
    (handleCommand eng uuid now command).materialized = [] ∧
    ∀ t ∈ (handleCommand eng uuid now command).trace,
      TraceEntry.isEventHandlerCall t = false := by
  have heq : handleCommand eng uuid now command =
      { result := Except.error err, materialized := [],
        trace := (createState eng ch.context command.subjects).2 } := by
    unfold handleCommand
    rw [hch]
    dsimp only
    rw [herr]
  refine ⟨by rw [heq], by rw [heq], ?_⟩
  rw [heq]
  intro t ht
  rcases mem_createState_trace ht with rfl | ⟨e, _, rfl⟩ | ⟨b, s, rfl⟩
  · rfl
  · rfl
  · rfl

/-- Witness for C4: the `"fail"` handler throws `"boom"`; the dispatch
propagates it with nothing materialized and no side-effect calls. -/
theorem handleCommand_propagates_handler_error_witness :
    mapGet demoEngine.commands "fail" = some demoFailCH ∧
    demoFailCH.handle 0
      (createState demoEngine demoFailCH.context ["/b/1"]).1 =
      Except.error "boom" ∧
    ((handleCommand demoEngine demoUuid "T"
        { type := "fail", subjects := ["/b/1"], data := 0 }).result =
        Except.error "boom" ∧
      (handleCommand demoEngine demoUuid "T"
        { type := "fail", subjects := ["/b/1"], data := 0 }).materialized = [] ∧
      ∀ t ∈ (handleCommand demoEngine demoUuid "T"
        { type := "fail", subjects := ["/b/1"], data := 0 }).trace,
        TraceEntry.isEventHandlerCall t = false) :=
  ⟨rfl, rfl,
    @handleCommand_propagates_handler_error Nat Nat Nat String Nat
      demoEngine demoUuid "T" { type := "fail", subjects := ["/b/1"], data := 0 }
      demoFailCH "boom" rfl rfl⟩

/-- Every entry in a `handleCommand` trace is a loader call, an upcast
application, a rebuilder call whose registered context equals the replay
context, or an event-handler call. -/
theorem mem_handleCommand_trace {t : TraceEntry D S H} {eng : Engine C D S E H}
    {uuid : Nat → String} {now : String} {command : Command C}
    (h : t ∈ (handleCommand eng uuid now command).trace) :
    (∃ ctx subs, t = TraceEntry.loaderCall ctx subs) ∨
    (∃ e e', t = TraceEntry.upcastCall e e') ∨
    (∃ c b s, t = TraceEntry.rebuilderCall c b c s) ∨
    (∃ hd e s, t = TraceEntry.eventHandlerCall hd e s) := by
  unfold handleCommand at h
  cases hget : mapGet eng.commands command.type with
  | none => rw [hget] at h; simp at h
  | some ch =>
    rw [hget] at h
    dsimp only at h
    cases hh : ch.handle command.data
        (createState eng ch.context command.subjects).1 with
    | error e =>
      rw [hh] at h
      dsimp only at h
      rcases mem_createState_trace h with rfl | ⟨e', _, rfl⟩ | ⟨b, s, rfl⟩
      · exact Or.inl ⟨_, _, rfl⟩
      · exact Or.inr (Or.inl ⟨_, _, rfl⟩)
      · exact Or.inr (Or.inr (Or.inl ⟨_, _, _, rfl⟩))
    | ok newEvents =>
      rw [hh] at h
      dsimp only at h
      simp only [List.mem_append] at h
      rcases h with (h | h) | h
      · rcases mem_createState_trace h with rfl | ⟨e', _, rfl⟩ | ⟨b, s, rfl⟩
        · exact Or.inl ⟨_, _, rfl⟩
        · exact Or.inr (Or.inl ⟨_, _, rfl⟩)
        · exact Or.inr (Or.inr (Or.inl ⟨_, _, _, rfl⟩))
      · rcases mem_foldEvents_trace h with ⟨b, s, rfl⟩
        exact Or.inr (Or.inr (Or.inl ⟨_, _, _, rfl⟩))
      · rcases mem_sideEffectCalls h with ⟨hd, ce, _, rfl⟩
        exact Or.inr (Or.inr (Or.inr ⟨_, _, _, rfl⟩))

/-! ### Claim C6: context isolation of state rebuilders -/

/-- Claim C6.  A rebuilder registered for `(contextA, X)` is never invoked
while replaying under a different context `contextB`: no invocation
record with registered context `contextA` and replay context `contextB`
can occur, neither in a `createState` replay under `contextB` nor
anywhere in a `handleCommand` dispatch. -/
theorem rebuilder_not_invoked_under_other_context {eng : Engine C D S E H}
    (uuid : Nat → String) (now : String) (command : Command C)
    (subjects : List String) {contextA contextB : String} (X : String)
    (st : Option S) (hne : contextA ≠ contextB) :
    (TraceEntry.rebuilderCall contextA X contextB st : TraceEntry D S H) ∉
      (createState (C := C) (E := E) eng contextB subjects).2 ∧
    (TraceEntry.rebuilderCall contextA X contextB st : TraceEntry D S H) ∉
      (handleCommand eng uuid now command).trace := by
  constructor
  · intro hmem
    rcases mem_createState_trace hmem with heq | ⟨e, _, heq⟩ | ⟨b, s, heq⟩
    · simp at heq
    · simp at heq
    · simp only [TraceEntry.rebuilderCall.injEq] at heq
      exact hne heq.1
  · intro hmem
    rcases mem_handleCommand_trace hmem with
      ⟨c, s, heq⟩ | ⟨e, e', heq⟩ | ⟨c, b, s, heq⟩ | ⟨hd, e, s, heq⟩
    · simp at heq
    · simp at heq
    · simp only [TraceEntry.rebuilderCall.injEq] at heq
      exact hne (heq.1.trans heq.2.2.1.symm)
    · simp at heq

/-- Witness for C6: a rebuilder registered for `("other", "borrowed")`
is never invoked on the demo replay under `"inv"`. -/
theorem rebuilder_not_invoked_under_other_context_witness :
    "other" ≠ "inv" ∧
    ((TraceEntry.rebuilderCall "other" "borrowed" "inv" (none : Option Nat) :
        TraceEntry Nat Nat Nat) ∉
      (createState (C := Nat) (E := String) demoEngine "inv" ["/b/1"]).2 ∧
    (TraceEntry.rebuilderCall "other" "borrowed" "inv" (none : Option Nat) :
        TraceEntry Nat Nat Nat) ∉
      (handleCommand demoEngine demoUuid "T" demoCommand).trace) :=
  ⟨by decide,
    @rebuilder_not_invoked_under_other_context Nat Nat Nat String Nat
      demoEngine demoUuid "T" demoCommand ["/b/1"] "other" "inv" "borrowed"
      none (by decide)⟩

/-- Shape of a successful dispatch: the returned state is the live fold,
the materialized list comes from `materializeEvents`, and the trace is
reconstruction, then live fold, then side-effect fan-out with the final
state. -/
theorem handleCommand_ok_eq {eng : Engine C D S E H} {uuid : Nat → String}
    {now : String} {command : Command C} {ch : CommandHandler C D S E}
    {newEvents : List (CloudEvent D)}
    (hch : mapGet eng.commands command.type = some ch)
    (hok : ch.handle command.data
        (createState eng ch.context command.subjects).1 = Except.ok newEvents) :
    handleCommand eng uuid now command =
      { result := Except.ok (foldEvents eng ch.context newEvents
          (createState eng ch.context command.subjects).1).1,
        materialized := materializeEvents eng.source uuid now newEvents 0,
        trace := (createState eng ch.context command.subjects).2 ++
          (foldEvents eng ch.context newEvents
            (createState eng ch.context command.subjects).1).2 ++
          sideEffectCalls eng (materializeEvents eng.source uuid now newEvents 0)
            (foldEvents eng ch.context newEvents
              (createState eng ch.context command.subjects).1).1 } := by
  unfold handleCommand
  rw [hch]
  dsimp only
  rw [hok]

/-- The live fold performs no upcast application. -/
theorem foldEvents_trace_filter_upcast {eng : Engine C D S E H} {ctx : String}
    {evs : List (CloudEvent D)} {st : Option S} :
    ((foldEvents eng ctx evs st).2).filter TraceEntry.isUpcastCall = [] := by
  rw [List.filter_eq_nil_iff]
  intro t ht
  rcases mem_foldEvents_trace ht with ⟨b, s, rfl⟩
  simp [TraceEntry.isUpcastCall]

/-- The side-effect fan-out performs no upcast application. -/
theorem sideEffectCalls_filter_upcast {eng : Engine C D S E H}
    {ces : List (CloudEvent D)} {st : Option S} :
    (sideEffectCalls eng ces st).filter TraceEntry.isUpcastCall = [] := by
  rw [List.filter_eq_nil_iff]
  intro t ht
  rcases mem_sideEffectCalls ht with ⟨hd, ce, _, rfl⟩
  simp [TraceEntry.isUpcastCall]

/-- Within `createState`, the upcast applications are exactly one per
loaded event, in load order. -/
theorem createState_trace_filter_upcast {eng : Engine C D S E H}
    {ctx : String} {subs : List String} :
    ((createState eng ctx subs).2).filter TraceEntry.isUpcastCall =
      (loadedEvents eng ctx subs).map
        (fun e => TraceEntry.upcastCall e (maybeUpcast eng e)) := by
  cases hsl : mapGet eng.stateLoader ctx with
  | none =>
    unfold createState loadedEvents
    rw [hsl]
    dsimp only
    simp [foldEvents]
  | some slf =>
    unfold createState loadedEvents
    rw [hsl]
    dsimp only
    simp only [List.filter_append]
    rw [foldEvents_trace_filter_upcast]
    have h2 : (((slf.load subs).map
          (fun e => TraceEntry.upcastCall e (maybeUpcast eng e))).filter
            (TraceEntry.isUpcastCall (S := S) (H := H))) =
        (slf.load subs).map
          (fun e => TraceEntry.upcastCall e (maybeUpcast eng e)) := by
      rw [List.filter_eq_self]
      intro t ht
      rcases List.mem_map.mp ht with ⟨e, _, rfl⟩
      rfl
    rw [h2]
    simp [TraceEntry.isUpcastCall]

/-! ### Claim C10: upcasting touches only loader-supplied events -/

/-- Claim C10.  In a successful dispatch the upcast resolver is applied
exactly to the events returned by the state loader, one application per
loaded event in load order; the handler-produced events are folded and
materialized raw, never passing through `maybeUpcast` — even when an
upcaster is registered for their type. -/
theorem upcast_applied_only_to_loaded_events {eng : Engine C D S E H}
    {uuid : Nat → String} {now : String} {command : Command C}
    {ch : CommandHandler C D S E} {newEvents : List (CloudEvent D)}
    (hch : mapGet eng.commands command.type = some ch)
    (hok : ch.handle command.data
        (createState eng ch.context command.subjects).1 = Except.ok newEvents) :
    ((handleCommand eng uuid now command).trace).filter
        TraceEntry.isUpcastCall =
      (loadedEvents eng ch.context command.subjects).map
        (fun e => TraceEntry.upcastCall e (maybeUpcast eng e)) ∧
    (handleCommand eng uuid now command).materialized =
      materializeEvents eng.source uuid now newEvents 0 ∧
    (handleCommand eng uuid now command).result =
      Except.ok (foldEvents eng ch.context newEvents
        (createState eng ch.context command.subjects).1).1 := by
  rw [handleCommand_ok_eq hch hok]
  refine ⟨?_, rfl, rfl⟩
  dsimp only
  simp only [List.filter_append]
  rw [createState_trace_filter_upcast, foldEvents_trace_filter_upcast,
    sideEffectCalls_filter_upcast]
  simp

/-- Witness for C10 on the demo engine, which has an upcaster registered
for the produced event's `(context, type)`: the only upcast application
in the whole dispatch is on the single loaded event. -/
theorem upcast_applied_only_to_loaded_events_witness :
    mapGet demoEngine.commands "borrow" = some demoBorrowCH ∧
    demoBorrowCH.handle demoCommand.data
      (createState demoEngine demoBorrowCH.context demoCommand.subjects).1 =
      Except.ok demoNewEvents ∧
    mapHas demoEngine.upcastHandler (createKey "inv" "borrowed") = true ∧
    (((handleCommand demoEngine demoUuid "T" demoCommand).trace).filter
        TraceEntry.isUpcastCall =
      (loadedEvents demoEngine demoBorrowCH.context demoCommand.subjects).map
        (fun e => TraceEntry.upcastCall e (maybeUpcast demoEngine e)) ∧
    (handleCommand demoEngine demoUuid "T" demoCommand).materialized =
      materializeEvents demoEngine.source demoUuid "T" demoNewEvents 0 ∧
    (handleCommand demoEngine demoUuid "T" demoCommand).result =
      Except.ok (foldEvents demoEngine demoBorrowCH.context demoNewEvents
        (createState demoEngine demoBorrowCH.context demoCommand.subjects).1).1) :=
  ⟨rfl, rfl, by decide,
    @upcast_applied_only_to_loaded_events Nat Nat Nat String Nat
      demoEngine demoUuid "T" demoCommand demoBorrowCH demoNewEvents rfl rfl⟩

/-! ### Claim C8: side-effect fan-out order and arguments -/

/-- Claim C8.  In a successful dispatch, side-effect invocations form the
final segment of the trace, after the state fold; nothing earlier in the
trace is an event-handler invocation; for each materialized event the
handlers registered for its type are invoked once each in list order
with that event and the final state; the materialized events fan out in
order; and `registerEventhandler` appends at the end of the per-type
list, so list order is registration order. -/
theorem event_handlers_invoked_in_order_after_fold {eng : Engine C D S E H}
    {uuid : Nat → String} {now : String} {command : Command C}
    {ch : CommandHandler C D S E} {newEvents : List (CloudEvent D)}
    (hch : mapGet eng.commands command.type = some ch)
    (hok : ch.handle command.data
        (createState eng ch.context command.subjects).1 = Except.ok newEvents) :
    (handleCommand eng uuid now command).result =
      Except.ok (foldEvents eng ch.context newEvents
        (createState eng ch.context command.subjects).1).1 ∧
    (handleCommand eng uuid now command).trace =
      (createState eng ch.context command.subjects).2 ++
        (foldEvents eng ch.context newEvents
          (createState eng ch.context command.subjects).1).2 ++
        sideEffectCalls eng (handleCommand eng uuid now command).materialized
          (foldEvents eng ch.context newEvents
            (createState eng ch.context command.subjects).1).1 ∧
    (∀ t, t ∈ (createState eng ch.context command.subjects).2 ++
        (foldEvents eng ch.context newEvents
          (createState eng ch.context command.subjects).1).2 →
      TraceEntry.isEventHandlerCall t = false) ∧
    (∀ (ce : CloudEvent D) (st : Option S)
        (ehs : List (EventHandler H)),
      mapGet eng.eventHandler ce.type = some ehs →
      sideEffectCalls eng [ce] st =
        ehs.map (fun eh => TraceEntry.eventHandlerCall eh.eventHandler ce st)) ∧
    (∀ (ce : CloudEvent D) (st : Option S),
      mapGet eng.eventHandler ce.type = none →
      sideEffectCalls eng [ce] st = []) ∧
    (∀ (ce : CloudEvent D) (rest : List (CloudEvent D)) (st : Option S),
      sideEffectCalls eng (ce :: rest) st =
        sideEffectCalls eng [ce] st ++ sideEffectCalls eng rest st) ∧
    (∀ (t : String) (f : H),
      mapGet (registerEventhandler eng t f).eventHandler t =
        some ((mapGet eng.eventHandler t).getD [] ++
          [{ type := t, eventHandler := f }])) := by
  refine ⟨?_, ?_, ?_, ?_, ?_, ?_, ?_⟩
  · rw [handleCommand_ok_eq hch hok]
  · rw [handleCommand_ok_eq hch hok]
  · intro t ht
    rcases List.mem_append.mp ht with h | h
    · rcases mem_createState_trace h with rfl | ⟨e, _, rfl⟩ | ⟨b, s, rfl⟩
      · rfl
      · rfl
      · rfl
    · rcases mem_foldEvents_trace h with ⟨b, s, rfl⟩
      rfl
  · intro ce st ehs hget
    simp only [sideEffectCalls, hget, List.append_nil]
  · intro ce st hget
    simp only [sideEffectCalls, hget, List.append_nil]
  · intro ce rest st
    simp only [sideEffectCalls, List.append_nil]
  · intro t f
    unfold registerEventhandler
    dsimp only
    exact mapGet_mapSet_self _ _ _

/-- Witness for C8 on the demo engine: the two handlers registered for
`"borrowed"` (ids `10` then `11`) are invoked in that order with the
materialized event and the final state `some 9`. -/
theorem event_handlers_invoked_in_order_after_fold_witness :
    mapGet demoEngine.commands "borrow" = some demoBorrowCH ∧
    demoBorrowCH.handle demoCommand.data
      (createState demoEngine demoBorrowCH.context demoCommand.subjects).1 =
      Except.ok demoNewEvents ∧
    sideEffectCalls demoEngine
        (handleCommand demoEngine demoUuid "T" demoCommand).materialized
        (some 9) =
      [TraceEntry.eventHandlerCall 10
        { id := some (demoUuid 0), source := some "CQRS_DEFAULTSOURCE",
          type := "borrowed", specversion := some "1.0", subject := "/b/1",
          time := some "T", data := 7, ext := [] } (some 9),
       TraceEntry.eventHandlerCall 11
        { id := some (demoUuid 0), source := some "CQRS_DEFAULTSOURCE",
          type := "borrowed", specversion := some "1.0", subject := "/b/1",
          time := some "T", data := 7, ext := [] } (some 9)] ∧
    ((handleCommand demoEngine demoUuid "T" demoCommand).result =
      Except.ok (foldEvents demoEngine demoBorrowCH.context demoNewEvents
        (createState demoEngine demoBorrowCH.context demoCommand.subjects).1).1 ∧
    (handleCommand demoEngine demoUuid "T" demoCommand).trace =
      (createState demoEngine demoBorrowCH.context demoCommand.subjects).2 ++
        (foldEvents demoEngine demoBorrowCH.context demoNewEvents
          (createState demoEngine demoBorrowCH.context demoCommand.subjects).1).2 ++
        sideEffectCalls demoEngine
          (handleCommand demoEngine demoUuid "T" demoCommand).materialized
          (foldEvents demoEngine demoBorrowCH.context demoNewEvents
            (createState demoEngine demoBorrowCH.context
              demoCommand.subjects).1).1 ∧
    (∀ t, t ∈ (createState demoEngine demoBorrowCH.context
        demoCommand.subjects).2 ++
        (foldEvents demoEngine demoBorrowCH.context demoNewEvents
          (createState demoEngine demoBorrowCH.context
            demoCommand.subjects).1).2 →
      TraceEntry.isEventHandlerCall t = false) ∧
    (∀ (ce : CloudEvent Nat) (st : Option Nat)
        (ehs : List (EventHandler Nat)),
      mapGet demoEngine.eventHandler ce.type = some ehs →
      sideEffectCalls demoEngine [ce] st =
        ehs.map (fun eh => TraceEntry.eventHandlerCall eh.eventHandler ce st)) ∧
    (∀ (ce : CloudEvent Nat) (st : Option Nat),
      mapGet demoEngine.eventHandler ce.type = none →
      sideEffectCalls demoEngine [ce] st = []) ∧
    (∀ (ce : CloudEvent Nat) (rest : List (CloudEvent Nat)) (st : Option Nat),
      sideEffectCalls demoEngine (ce :: rest) st =
        sideEffectCalls demoEngine [ce] st ++ sideEffectCalls demoEngine rest st) ∧
    (∀ (t : String) (f : Nat),
      mapGet (registerEventhandler demoEngine t f).eventHandler t =
        some ((mapGet demoEngine.eventHandler t).getD [] ++
          [{ type := t, eventHandler := f }]))) :=
  ⟨rfl, rfl, by decide,
    @event_handlers_invoked_in_order_after_fold Nat Nat Nat String Nat
      demoEngine demoUuid "T" demoCommand demoBorrowCH demoNewEvents rfl rfl⟩

/-! ### Claim C7: materialized wire-event fields -/

/-- Claim C7. (counterexample).  A handler-supplied empty-string id is kept
verbatim (`event.id ?? randomUUID()` only replaces an absent id), so the
materialized wire event of this dispatch has the empty id `""` — the
claim's unconditional "non-empty id" fails on this input. -/
theorem materialized_id_can_be_empty :
    (handleCommand c7Engine demoUuid "T"
      { type := "emit", subjects := [], data := 0 }).materialized.map
        CloudEvent.id = [some ""] ∧
    (handleCommand c7Engine demoUuid "T"
      { type := "emit", subjects := [], data := 0 }).materialized =
      [{ id := some "", source := some "CQRS_DEFAULTSOURCE", type := "t",
         specversion := some "1.0", subject := "/s/1", time := some "T",
         data := 0, ext := [] }] := by
  exact ⟨by decide, by decide⟩

theorem materializeEvents_length (src : String) (uuid : Nat → String)
    (now : String) :
    ∀ (evs : List (CloudEvent D)) (n : Nat),
      (materializeEvents src uuid now evs n).length = evs.length := by
  intro evs
  induction evs with
  | nil => intro n; rfl
  | cons e rest ih =>
    intro n
    cases hid : e.id <;> simp [materializeEvents, hid, ih]

theorem materializeEvents_get? (src now : String) (uuid : Nat → String) :
    ∀ (evs : List (CloudEvent D)) (n i : Nat) (ev : CloudEvent D),
      evs.get? i = some ev →
      (materializeEvents src uuid now evs n).get? i =
        some (materializeEvent src (uuid (n + countNoneId evs i)) now ev) := by
  intro evs
  induction evs with
  | nil => intro n i ev h; simp at h
  | cons e rest ih =>
    intro n i ev h
    cases hid : e.id with
    | some s =>
      cases i with
      | zero =>
        have hev : ev = e := (Option.some.inj h).symm
        subst hev
        simp [materializeEvents, hid, countNoneId, materializeEvent, List.get?]
      | succ i' =>
        simp only [List.get?] at h
        have hrec := ih n i' ev h
        simp only [List.get?_eq_getElem?] at hrec
        simp [materializeEvents, hid, List.get?, countNoneId, hrec]
    | none =>
      cases i with
      | zero =>
        have hev : ev = e := (Option.some.inj h).symm
        subst hev
        simp [materializeEvents, hid, countNoneId, materializeEvent, List.get?]
      | succ i' =>
        simp only [List.get?] at h
        have hrec := ih (n + 1) i' ev h
        simp only [List.get?_eq_getElem?] at hrec
        simp [materializeEvents, hid, List.get?, countNoneId, hrec,
          Nat.add_assoc]

theorem countNoneId_lt :
    ∀ (evs : List (CloudEvent D)) (i j : Nat) (hi : i < evs.length),
      i < j → (evs.get ⟨i, hi⟩).id = none →
      countNoneId evs i < countNoneId evs j := by
  intro evs
  induction evs with
  | nil => intro i j hi; simp at hi
  | cons e rest ih =>
    intro i j hi hij hid
    cases i with
    | zero =>
      cases j with
      | zero => omega
      | succ j' =>
        have he : e.id = none := hid
        simp [countNoneId, he]
    | succ i' =>
      cases j with
      | zero => omega
      | succ j' =>
        have hstep := ih i' j' (by simpa using hi) (by omega) (by simpa using hid)
        cases hid2 : e.id <;> simp [countNoneId, hid2] <;> omega

/-- Claim C7. (amended).  On a successful dispatch the materialized wire
events are `materializeEvents` of the handler's output: each carries
`type`, `subject`, `data` and extension fields verbatim,
`specversion = "1.0"`, `time` filled with the current instant when
absent, `source` filled with the process-wide default (the value the
most recent `setSource` installed) when absent, and an id that is the
handler-supplied one when present, and otherwise a freshly generated,
non-empty id that is distinct for every id-less event of the call. -/
theorem materialized_event_field_defaults {eng : Engine C D S E H}
    {uuid : Nat → String} {now : String} {command : Command C}
    {ch : CommandHandler C D S E} {newEvents : List (CloudEvent D)}
    (hch : mapGet eng.commands command.type = some ch)
    (hok : ch.handle command.data
        (createState eng ch.context command.subjects).1 = Except.ok newEvents)
    (hne : ∀ n, uuid n ≠ "") (hinj : Function.Injective uuid) :
    (∀ s, (setSource eng s).source = s) ∧
    (handleCommand eng uuid now command).materialized =
      materializeEvents eng.source uuid now newEvents 0 ∧
    (materializeEvents eng.source uuid now newEvents 0).length =
      newEvents.length ∧
    (∀ i (hi : i < newEvents.length)
        (hi2 : i < (materializeEvents eng.source uuid now newEvents 0).length),
      ((materializeEvents eng.source uuid now newEvents 0).get ⟨i, hi2⟩).type =
          (newEvents.get ⟨i, hi⟩).type ∧
      ((materializeEvents eng.source uuid now newEvents 0).get ⟨i, hi2⟩).subject =
          (newEvents.get ⟨i, hi⟩).subject ∧
      ((materializeEvents eng.source uuid now newEvents 0).get ⟨i, hi2⟩).data =
          (newEvents.get ⟨i, hi⟩).data ∧
      ((materializeEvents eng.source uuid now newEvents 0).get ⟨i, hi2⟩).ext =
          (newEvents.get ⟨i, hi⟩).ext ∧
      ((materializeEvents eng.source uuid now newEvents 0).get ⟨i, hi2⟩).specversion =
          some "1.0" ∧
      ((materializeEvents eng.source uuid now newEvents 0).get ⟨i, hi2⟩).time =
          some ((newEvents.get ⟨i, hi⟩).time.getD now) ∧
      ((materializeEvents eng.source uuid now newEvents 0).get ⟨i, hi2⟩).source =
          some ((newEvents.get ⟨i, hi⟩).source.getD eng.source) ∧
      (∀ s, (newEvents.get ⟨i, hi⟩).id = some s →
        ((materializeEvents eng.source uuid now newEvents 0).get ⟨i, hi2⟩).id =
          some s) ∧
      ((newEvents.get ⟨i, hi⟩).id = none →
        (∃ k, ((materializeEvents eng.source uuid now newEvents 0).get
            ⟨i, hi2⟩).id = some (uuid k)) ∧
        ((materializeEvents eng.source uuid now newEvents 0).get ⟨i, hi2⟩).id ≠
          some "")) ∧
    (∀ i j (hi : i < newEvents.length) (hj : j < newEvents.length)
        (hi2 : i < (materializeEvents eng.source uuid now newEvents 0).length)
        (hj2 : j < (materializeEvents eng.source uuid now newEvents 0).length),
      i ≠ j → (newEvents.get ⟨i, hi⟩).id = none →
      (newEvents.get ⟨j, hj⟩).id = none →
      ((materializeEvents eng.source uuid now newEvents 0).get ⟨i, hi2⟩).id ≠
        ((materializeEvents eng.source uuid now newEvents 0).get ⟨j, hj2⟩).id) := by
  have hget : ∀ (i : Nat) (hi : i < newEvents.length)
      (hi2 : i < (materializeEvents eng.source uuid now newEvents 0).length),
      (materializeEvents eng.source uuid now newEvents 0).get ⟨i, hi2⟩ =
        materializeEvent eng.source (uuid (0 + countNoneId newEvents i)) now
          (newEvents.get ⟨i, hi⟩) := by
    intro i hi hi2
    have hg : newEvents.get? i = some (newEvents.get ⟨i, hi⟩) :=
      List.get?_eq_get hi
    have hm := materializeEvents_get? eng.source now uuid newEvents 0 i _ hg
    have h3 : (materializeEvents eng.source uuid now newEvents 0).get? i =
        some ((materializeEvents eng.source uuid now newEvents 0).get
          ⟨i, hi2⟩) := List.get?_eq_get hi2
    rw [hm] at h3
    exact (Option.some.inj h3).symm
  refine ⟨fun s => rfl, ?_, materializeEvents_length _ _ _ _ _, ?_, ?_⟩
  · rw [handleCommand_ok_eq hch hok]
  · intro i hi hi2
    rw [hget i hi hi2]
    refine ⟨rfl, rfl, rfl, rfl, rfl, rfl, rfl, ?_, ?_⟩
    · intro s' hs'
      simp only [List.get_eq_getElem] at hs'
      simp [materializeEvent, hs']
    · intro hnone
      have hnone2 := hnone
      simp only [List.get_eq_getElem] at hnone2
      constructor
      · exact ⟨0 + countNoneId newEvents i, by simp [materializeEvent, hnone2]⟩
      · simp only [materializeEvent, hnone]
        intro hcon
        simp only [Option.getD, Option.some.injEq] at hcon
        exact hne _ hcon
  · intro i j hi hj hi2 hj2 hij hidi hidj
    have hidi2 := hidi
    have hidj2 := hidj
    simp only [List.get_eq_getElem] at hidi2 hidj2
    have h1 : ((materializeEvents eng.source uuid now newEvents 0).get
        ⟨i, hi2⟩).id = some (uuid (0 + countNoneId newEvents i)) := by
      rw [hget i hi hi2]
      simp [materializeEvent, hidi2]
    have h2 : ((materializeEvents eng.source uuid now newEvents 0).get
        ⟨j, hj2⟩).id = some (uuid (0 + countNoneId newEvents j)) := by
      rw [hget j hj hj2]
      simp [materializeEvent, hidj2]
    rw [h1, h2]
    intro heq
    have huu : uuid (0 + countNoneId newEvents i) =
        uuid (0 + countNoneId newEvents j) := Option.some.inj heq
    have hcc := hinj huu
    rcases Nat.lt_or_ge i j with hlt | hge
    · have := countNoneId_lt newEvents i j hi hlt hidi
      omega
    · have hgt : j < i := by omega
      have := countNoneId_lt newEvents j i hj hgt hidj
      omega

/-- Witness for the amended C7: generated ids are `demoUuid 0` and
`demoUuid 1` on the two id-less events, the supplied id is kept, and all
hypotheses hold at this input. -/
theorem materialized_event_field_defaults_witness :
    mapGet c7bEngine.commands "emit" = some c7bCH ∧
    c7bCH.handle 0 (createState c7bEngine c7bCH.context ([] : List String)).1 =
      Except.ok c7bEvents ∧
    (∀ n, demoUuid n ≠ "") ∧
    Function.Injective demoUuid ∧
    (handleCommand c7bEngine demoUuid "T"
      { type := "emit", subjects := [], data := 0 }).materialized.map
        CloudEvent.id = [some (demoUuid 0), some "given", some (demoUuid 1)] ∧
    ((∀ s, (setSource c7bEngine s).source = s) ∧
      (handleCommand c7bEngine demoUuid "T"
        { type := "emit", subjects := [], data := 0 }).materialized =
        materializeEvents c7bEngine.source demoUuid "T" c7bEvents 0 ∧
      (materializeEvents c7bEngine.source demoUuid "T" c7bEvents 0).length =
        c7bEvents.length ∧
      (∀ i (hi : i < c7bEvents.length)
          (hi2 : i < (materializeEvents c7bEngine.source demoUuid "T"
            c7bEvents 0).length),
        ((materializeEvents c7bEngine.source demoUuid "T" c7bEvents 0).get
            ⟨i, hi2⟩).type = (c7bEvents.get ⟨i, hi⟩).type ∧
        ((materializeEvents c7bEngine.source demoUuid "T" c7bEvents 0).get
            ⟨i, hi2⟩).subject = (c7bEvents.get ⟨i, hi⟩).subject ∧
        ((materializeEvents c7bEngine.source demoUuid "T" c7bEvents 0).get
            ⟨i, hi2⟩).data = (c7bEvents.get ⟨i, hi⟩).data ∧
        ((materializeEvents c7bEngine.source demoUuid "T" c7bEvents 0).get
            ⟨i, hi2⟩).ext = (c7bEvents.get ⟨i, hi⟩).ext ∧
        ((materializeEvents c7bEngine.source demoUuid "T" c7bEvents 0).get
            ⟨i, hi2⟩).specversion = some "1.0" ∧
        ((materializeEvents c7bEngine.source demoUuid "T" c7bEvents 0).get
            ⟨i, hi2⟩).time = some ((c7bEvents.get ⟨i, hi⟩).time.getD "T") ∧
        ((materializeEvents c7bEngine.source demoUuid "T" c7bEvents 0).get
            ⟨i, hi2⟩).source =
          some ((c7bEvents.get ⟨i, hi⟩).source.getD c7bEngine.source) ∧
        (∀ s, (c7bEvents.get ⟨i, hi⟩).id = some s →
          ((materializeEvents c7bEngine.source demoUuid "T" c7bEvents 0).get
            ⟨i, hi2⟩).id = some s) ∧
        ((c7bEvents.get ⟨i, hi⟩).id = none →
          (∃ k, ((materializeEvents c7bEngine.source demoUuid "T"
              c7bEvents 0).get ⟨i, hi2⟩).id = some (demoUuid k)) ∧
          ((materializeEvents c7bEngine.source demoUuid "T" c7bEvents 0).get
            ⟨i, hi2⟩).id ≠ some "")) ∧
      (∀ i j (hi : i < c7bEvents.length) (hj : j < c7bEvents.length)
          (hi2 : i < (materializeEvents c7bEngine.source demoUuid "T"
            c7bEvents 0).length)
          (hj2 : j < (materializeEvents c7bEngine.source demoUuid "T"
            c7bEvents 0).length),
        i ≠ j → (c7bEvents.get ⟨i, hi⟩).id = none →
        (c7bEvents.get ⟨j, hj⟩).id = none →
        ((materializeEvents c7bEngine.source demoUuid "T" c7bEvents 0).get
            ⟨i, hi2⟩).id ≠
          ((materializeEvents c7bEngine.source demoUuid "T" c7bEvents 0).get
            ⟨j, hj2⟩).id)) :=
  ⟨rfl, rfl, demoUuid_ne_empty, demoUuid_injective, by decide,
    @materialized_event_field_defaults Nat Nat Nat String Nat
      c7bEngine demoUuid "T" { type := "emit", subjects := [], data := 0 }
      c7bCH c7bEvents rfl rfl demoUuid_ne_empty demoUuid_injective⟩

end Evco
